import Mathlib

/-!
Verification development for the react-image-cropper repository.

The repository contains three cropper variants plus a slider wrapper:

* `ImageCropperWithDiv` (src/unnamed/part_002, and an earlier behaviourally
  identical revision in src/src/ImageCropperWithDiv.tsx): React-state based,
  DOM/CSS preview, off-screen canvas export with an optional `resolutionPx`
  and an optional `onCrop` callback.
* `ImageCropperRef` (src/unnamed/part_000): the older ref-based canvas
  cropper (slider handlers take `number[]`, pan/zoom/rotation live in refs,
  a ctrl-wheel handler clamps zoom).
* `ImageCropperCanvas` (the second document inside
  src/src/ImageCropperWithDiv.tsx): a newer ref-based canvas cropper with a
  `resolutionPx` prop whose default canvas size is the container width.

Numbers are modelled as rationals (the code uses IEEE doubles; the claims
under scrutiny are about exact algebraic relationships, not rounding).
A file-change event is modelled by `Option String`: `some url` when a file
is present and its contents decode to a data-URL string, `none` otherwise.
Canvas / 2D-context availability is modelled by `Bool` flags, and the
image `onload` callback firing with dimensions by `Option (ℚ × ℚ)`.
-/

/-- 2D vector, as the `Vector2` interface of the source. -/
structure Vector2 where
  x : ℚ
  y : ℚ
deriving DecidableEq, Repr

namespace ImageCropperWithDiv

/-- Component-local state of ImageCropperWithDiv (src/unnamed/part_002):
`imageState`, `zoomState`, `rotationState`, `panState`, in internal-state
mode (no external props supplied). -/
structure State where
  imageSrc : String
  zoom : ℚ
  rotation : ℚ
  pan : Vector2
deriving DecidableEq, Repr

/-- Initial state: `useState("")`, `useState(1)`, `useState(0)`,
`useState({x: 0, y: 0})` (part_002 lines 68-71). -/
def initialState : State :=
  { imageSrc := "", zoom := 1, rotation := 0, pan := { x := 0, y := 0 } }

/-- `handleZoomChange` (part_002 lines 128-131):
`const newZoom = Math.max(0.25, value); setZoom(newZoom);`. -/
def handleZoomChange (value : ℚ) (s : State) : State :=
  { s with zoom := max (1/4) value }

/-- `handleRotationChange` (part_002 lines 133-136): stores the value. -/
def handleRotationChange (value : ℚ) (s : State) : State :=
  { s with rotation := value }

/-- `handlePanXChange` (part_002 lines 138-141):
`setPan((prev) => ({ ...prev, x }))`. -/
def handlePanXChange (value : ℚ) (s : State) : State :=
  { s with pan := { s.pan with x := value } }

/-- `handlePanYChange` (part_002 lines 143-146):
`setPan((prev) => ({ ...prev, y }))`. -/
def handlePanYChange (value : ℚ) (s : State) : State :=
  { s with pan := { s.pan with y := value } }

/-- `handleImageChange` (part_002 lines 109-126). On a successful decode it
runs `setImageSrc(dataUrl); handlePanXChange(0); handleZoomChange(1);
handleRotationChange(0);`. With no file (or a non-string reader result)
nothing at all happens. -/
def handleImageChange (dataUrl : Option String) (s : State) : State :=
  match dataUrl with
  | none => s
  | some url =>
      handleRotationChange 0 (handleZoomChange 1
        (handlePanXChange 0 { s with imageSrc := url }))

/-- `useGesture` `onDrag` (part_002 lines 246-250):
`handlePanXChange(pan.x + mx / zoom); handlePanYChange(pan.y + my / zoom);`
where `pan` and `zoom` are the values of the current render closure. -/
def onDrag (mx my : ℚ) (s : State) : State :=
  handlePanYChange (s.pan.y + my / s.zoom)
    (handlePanXChange (s.pan.x + mx / s.zoom) s)

/-- `useGesture` `onPinch` (part_002 lines 251-254):
`handleZoomChange(zoom + scaleOffset)` (rotation update is commented out). -/
def onPinch (scaleOffset : ℚ) (s : State) : State :=
  handleZoomChange (s.zoom + scaleOffset) s

/-- One user interaction event of the ImageCropperWithDiv component. -/
inductive Event where
  | upload (dataUrl : Option String)
  | zoomSlider (v : ℚ)
  | rotationSlider (v : ℚ)
  | panXSlider (v : ℚ)
  | panYSlider (v : ℚ)
  | drag (mx my : ℚ)
  | pinch (scaleOffset : ℚ)
deriving DecidableEq, Repr

/-- State transition of one event; every handler that the component wires
to an input dispatches through here. -/
def step : Event → State → State
  | Event.upload d, s => handleImageChange d s
  | Event.zoomSlider v, s => handleZoomChange v s
  | Event.rotationSlider v, s => handleRotationChange v s
  | Event.panXSlider v, s => handlePanXChange v s
  | Event.panYSlider v, s => handlePanYChange v s
  | Event.drag mx my, s => onDrag mx my s
  | Event.pinch d, s => onPinch d s

/-- States reachable from mount by user interaction. -/
inductive Reachable : State → Prop where
  | init : Reachable initialState
  | next (e : Event) {s : State} : Reachable s → Reachable (step e s)

/-- The data that fully determines the off-screen canvas rendered by
`drawToCanvas` (part_002 lines 160-204), hence also its PNG data-URL
encoding: canvas resolution, transform parameters and source image. -/
structure DrawParams where
  size : ℚ
  zoom : ℚ
  rotationDeg : ℚ
  normPan : Vector2
  imageW : ℚ
  imageH : ℚ
  imageSrc : String
deriving DecidableEq, Repr

/-- The output action performed at the end of `drawToCanvas`
(part_002 lines 206-222): pass the encoded image to `onCrop`, or trigger a
browser download of it. The encoded image is represented by the
`DrawParams` that determine it. -/
inductive CropOutput where
  | callback (img : DrawParams)
  | download (img : DrawParams)
deriving DecidableEq, Repr

/-- The draw parameters computed inside the `image.onload` callback of
`drawToCanvas` (part_002 lines 160-204):
`size = resolutionPx ?? Math.min(width, height)`, and
`normalizedPan = { x: pan.x * (size / containerDims.width) * zoom,
y: pan.y * (size / containerDims.height) * zoom }`. -/
def drawParams (resolutionPx : Option ℚ) (containerDims : Vector2)
    (s : State) (w h : ℚ) : DrawParams :=
  let size := resolutionPx.getD (min w h)
  { size := size
    zoom := s.zoom
    rotationDeg := s.rotation
    normPan := { x := s.pan.x * (size / containerDims.x) * s.zoom
                 y := s.pan.y * (size / containerDims.y) * s.zoom }
    imageW := w
    imageH := h
    imageSrc := s.imageSrc }

/-- `drawToCanvas` (part_002 lines 148-223). The canvas is created by
`document.createElement`; `getContext("2d")` may fail (`ctx2dOk`); the
image `onload` may or may not fire with dimensions (`loadedDims`). On the
success path the encoded image goes to the `onCrop` callback when one is
supplied (`hasOnCrop`), otherwise to a download. -/
def drawToCanvas (resolutionPx : Option ℚ) (hasOnCrop : Bool)
    (containerDims : Vector2) (ctx2dOk : Bool)
    (loadedDims : Option (ℚ × ℚ)) (s : State) : Option CropOutput :=
  if ctx2dOk then
    match loadedDims with
    | none => none
    | some (w, h) =>
        let p := drawParams resolutionPx containerDims s w h
        if hasOnCrop then some (CropOutput.callback p)
        else some (CropOutput.download p)
  else none

end ImageCropperWithDiv

namespace ImageCropperRef

/-- Ref-held state of the older canvas cropper (src/unnamed/part_000
lines 25-28): `imageSrc`, `zoom`, `rotation`, `pan`. -/
structure State where
  imageSrc : String
  zoom : ℚ
  rotation : ℚ
  pan : Vector2
deriving DecidableEq, Repr

/-- Initial refs: `useRef("")`, `useRef(1)`, `useRef(0)`,
`useRef({x: 0, y: 0})`. -/
def initialState : State :=
  { imageSrc := "", zoom := 1, rotation := 0, pan := { x := 0, y := 0 } }

/-- `handleZoomChange` (part_000 lines 103-109):
`const newZoom = value[0]; zoom.current = newZoom;` — no clamping. The
argument is the first element of the slider's value array. -/
def handleZoomChange (value : ℚ) (s : State) : State :=
  { s with zoom := value }

/-- `handleRotationChange` (part_000 lines 111-117). -/
def handleRotationChange (value : ℚ) (s : State) : State :=
  { s with rotation := value }

/-- `handlePanXChange` (part_000 lines 119-125):
`pan.current = { ...pan.current, x }`. -/
def handlePanXChange (value : ℚ) (s : State) : State :=
  { s with pan := { s.pan with x := value } }

/-- `handlePanYChange` (part_000 lines 127-133):
`pan.current = { ...pan.current, y }`. -/
def handlePanYChange (value : ℚ) (s : State) : State :=
  { s with pan := { s.pan with y := value } }

/-- `handleImageChange` (part_000 lines 82-101). It assigns
`zoom.current = 0.5; rotation.current = 0;` before reading
`e.target.files?.[0]`. The returned `Bool` is whether `updateCanvas()` was
requested (it is called only inside the reader callback, after a
successful string decode). Pan is never touched. -/
def handleImageChange (dataUrl : Option String) (s : State) : State × Bool :=
  let s1 := { s with zoom := 1/2, rotation := 0 }
  match dataUrl with
  | none => (s1, false)
  | some url => ({ s1 with imageSrc := url }, true)

/-- The ctrl-wheel trackpad handler (part_000 lines 151-168):
`zoom.current += -e.deltaY / 100; zoom.current = Math.max(0.25, zoom.current);`
guarded by `e.ctrlKey`. -/
def wheelZoom (deltaY : ℚ) (ctrlKey : Bool) (s : State) : State :=
  if ctrlKey then { s with zoom := max (1/4) (s.zoom + -deltaY / 100) }
  else s

/-- `useGesture` `onDrag` (part_000 lines 172-180):
`pan.current = { x: pan.current.x + mx / 100, y: pan.current.y + my / 100 }`. -/
def onDrag (mx my : ℚ) (s : State) : State :=
  { s with pan := { x := s.pan.x + mx / 100, y := s.pan.y + my / 100 } }

/-- `useGesture` `onPinch` (part_000 lines 181-187): stores the pinch
offsets directly into zoom and rotation, with no clamping. -/
def onPinch (scaleOffset pinchAngleOffset : ℚ) (s : State) : State :=
  { s with zoom := scaleOffset, rotation := pinchAngleOffset }

/-- The draw command issued by `updateCanvas` (part_000 lines 30-81):
canvas size `min(width, height)`, translate by
`(size/2 + pan.x * dWidth / 2, size/2 + pan.y * dHeight / 2)`, rotate by
the rotation angle (degrees), destination rectangle
`(-dWidth/2, -dHeight/2, dWidth, dHeight)` with `dWidth = width * zoom`. -/
structure DrawCmd where
  size : ℚ
  translate : Vector2
  rotationDeg : ℚ
  dx : ℚ
  dy : ℚ
  dWidth : ℚ
  dHeight : ℚ
deriving DecidableEq, Repr

/-- `updateCanvas` (part_000 lines 30-81). `if (!canvas || !context) return;`
is the silent early return; the draw itself happens in `image.onload`. -/
def updateCanvas (canvasPresent ctx2dOk : Bool)
    (loadedDims : Option (ℚ × ℚ)) (s : State) : Option DrawCmd :=
  if canvasPresent && ctx2dOk then
    match loadedDims with
    | none => none
    | some (w, h) =>
        let size := min w h
        let dWidth := w * s.zoom
        let dHeight := h * s.zoom
        some { size := size
               translate := { x := size / 2 + s.pan.x * dWidth / 2
                              y := size / 2 + s.pan.y * dHeight / 2 }
               rotationDeg := s.rotation
               dx := -dWidth / 2
               dy := -dHeight / 2
               dWidth := dWidth
               dHeight := dHeight }
  else none

/-- `handleSubmit` (part_000 lines 135-148): downloads the canvas PNG
(`pngData`) only when both the canvas element and its 2D context exist;
otherwise it does nothing. -/
def handleSubmit (canvasPresent ctx2dOk : Bool) (pngData : String) :
    Option String :=
  if canvasPresent && ctx2dOk then some pngData else none

end ImageCropperRef

namespace ImageCropperCanvas

/-- Canvas resolution of `updateCanvas` in the newer ref-based canvas
cropper (second document of src/src/ImageCropperWithDiv.tsx, lines
327-336): `const size = resolutionPx ??
canvasContainerRef.current?.getBoundingClientRect().width ?? 512;`.
The image dimensions play no part in it. -/
def canvasResolution (resolutionPx containerWidth : Option ℚ) : ℚ :=
  resolutionPx.getD (containerWidth.getD 512)

end ImageCropperCanvas

namespace Transform2D

/-!
Geometry of the two rendering strategies of ImageCropperWithDiv.

Both CSS `rotate(θdeg)` and `CanvasRenderingContext2D.rotate(θrad)` apply
the rotation matrix `[[cos θ, -sin θ], [sin θ, cos θ]]` (the canvas call
receives `rotation * Math.PI / 180`, i.e. the same angle). To keep the
embedding computable we parametrise a rotation by the pair
`(c, s) = (cos θ, sin θ)` of that matrix; both strategies use the same
angle, hence the same pair. `(c, s) = (1, 0)` is rotation by 0°,
`(0, 1)` is rotation by 90°.
-/

/-- Apply the rotation matrix with cosine `c` and sine `s` to a point. -/
def rotatePt (c s : ℚ) (p : ℚ × ℚ) : ℚ × ℚ :=
  (c * p.1 - s * p.2, s * p.1 + c * p.2)

/-- Position of an image point under the DOM preview of ImageCropperWithDiv
(part_002 lines 271-292). The preview div is centred in the square
container (side `csize`) by flexbox, and carries
`transform: scale(zoom) rotate(rdeg) translate(pan.x px, pan.y px)`,
which maps a point `p` (relative to the element centre, about the default
central transform origin) to `zoom • R (p + pan)`; matrices of a CSS
transform list multiply left to right, so the translation is applied to
the point first. Coordinates are absolute (container origin). -/
def divPreviewPoint (zoom c s panx pany csize : ℚ) (p : ℚ × ℚ) : ℚ × ℚ :=
  let q := rotatePt c s (p.1 + panx, p.2 + pany)
  (csize / 2 + zoom * q.1, csize / 2 + zoom * q.2)

/-- Position of an image point under the canvas export of
ImageCropperWithDiv (`drawToCanvas`, part_002 lines 184-204): the context
receives `translate(size/2 + normalizedPan)`, then `rotate`, then
`scale(zoom)`, and the image is drawn centred at the origin
(`dx = -dWidth/2`), so a point `p` of the destination rectangle lands at
`translate + R (zoom • p)`. `normalizedPan = pan * (size / csize) * zoom`
componentwise (the container is square, so both container dimensions are
`csize`). Coordinates are absolute (canvas origin). -/
def canvasExportPoint (zoom c s panx pany size csize : ℚ) (p : ℚ × ℚ) :
    ℚ × ℚ :=
  let npx := panx * (size / csize) * zoom
  let npy := pany * (size / csize) * zoom
  let q := rotatePt c s (zoom * p.1, zoom * p.2)
  (size / 2 + npx + q.1, size / 2 + npy + q.2)

/-- The two strategies place the image identically up to the uniform
resolution scaling `k = size / csize` between container and canvas:
scaling a preview point by `k` gives the export position of the
`k`-scaled image point. -/
def previewExportAgree (zoom c s panx pany size csize : ℚ) : Prop :=
  ∀ p : ℚ × ℚ,
    canvasExportPoint zoom c s panx pany size csize
      (size / csize * p.1, size / csize * p.2)
    = (size / csize * (divPreviewPoint zoom c s panx pany csize p).1,
       size / csize * (divPreviewPoint zoom c s panx pany csize p).2)

end Transform2D

namespace ImageCropperWithDiv

/-- Every reachable state of ImageCropperWithDiv keeps `zoom ≥ 0.25`:
the initial zoom is 1 and every write to zoom goes through
`handleZoomChange`, i.e. through the `Math.max(0.25, ·)` clamp. -/
theorem reachable_zoom_lb {s : State} (h : Reachable s) :
    (1 : ℚ)/4 ≤ s.zoom := by
  induction h with
  | init => norm_num [initialState]
  | next e s ih =>
    cases e with
    | upload d =>
      cases d with
      | none => simpa [step, handleImageChange] using ih
      | some url =>
        simp only [step, handleImageChange, handleRotationChange,
          handleZoomChange, handlePanXChange]
        exact le_max_left _ _
    | zoomSlider v =>
      simp only [step, handleZoomChange]
      exact le_max_left _ _
    | rotationSlider v => simpa [step, handleRotationChange] using ih
    | panXSlider v => simpa [step, handlePanXChange] using ih
    | panYSlider v => simpa [step, handlePanYChange] using ih
    | drag mx my =>
      simpa [step, onDrag, handlePanXChange, handlePanYChange] using ih
    | pinch d =>
      simp only [step, onPinch, handleZoomChange]
      exact le_max_left _ _

end ImageCropperWithDiv

/-- Claim C1, counterexample: a successful upload does not reset the full
pan offset. In ImageCropperWithDiv, from a state with pan = (0, 7), the
upload leaves pan.y = 7 (only `handlePanXChange(0)` is called); and in the
ref-based cropper the upload sets zoom to 0.5, not 1. -/
theorem c1_upload_reset_counterexample :
    (ImageCropperWithDiv.handleImageChange (some "data-url")
      { imageSrc := "", zoom := 1, rotation := 0,
        pan := { x := 0, y := 7 } }).pan.y ≠ 0
    ∧ (ImageCropperRef.handleImageChange (some "data-url")
        ImageCropperRef.initialState).1.zoom ≠ 1 := by
  constructor
  · norm_num [ImageCropperWithDiv.handleImageChange,
      ImageCropperWithDiv.handleRotationChange,
      ImageCropperWithDiv.handleZoomChange,
      ImageCropperWithDiv.handlePanXChange]
  · norm_num [ImageCropperRef.handleImageChange,
      ImageCropperRef.initialState]

/-- Claim C1, amended: a successful upload in ImageCropperWithDiv sets the
image source, zoom to 1, rotation to 0 and pan.x to 0, but leaves pan.y
unchanged; in the ref-based ImageCropper it sets zoom to 0.5 and rotation
to 0 and leaves the whole pan offset unchanged. -/
theorem c1_upload_reset_amended :
    (∀ (url : String) (s : ImageCropperWithDiv.State),
      ImageCropperWithDiv.handleImageChange (some url) s =
        { imageSrc := url, zoom := 1, rotation := 0,
          pan := { x := 0, y := s.pan.y } })
    ∧ (∀ (url : String) (s : ImageCropperRef.State),
      (ImageCropperRef.handleImageChange (some url) s).1 =
        { imageSrc := url, zoom := 1/2, rotation := 0, pan := s.pan }) := by
  constructor
  · intro url s
    simp [ImageCropperWithDiv.handleImageChange,
      ImageCropperWithDiv.handleRotationChange,
      ImageCropperWithDiv.handleZoomChange,
      ImageCropperWithDiv.handlePanXChange]
    norm_num
  · intro url s
    rfl

/-- Claim C2, counterexample: the zoom-change operation of the ref-based
ImageCropper (part_000 lines 103-109) stores the raw slider value with no
clamp, so the value 0.1 leaves zoom below the 0.25 minimum. -/
theorem c2_zoom_clamp_counterexample :
    (ImageCropperRef.handleZoomChange (1/10)
        ImageCropperRef.initialState).zoom ≠ max (1/4) (1/10)
    ∧ ¬ ((1:ℚ)/4 ≤ (ImageCropperRef.handleZoomChange (1/10)
        ImageCropperRef.initialState).zoom) := by
  constructor
  · norm_num [ImageCropperRef.handleZoomChange, max_def]
  · norm_num [ImageCropperRef.handleZoomChange]

/-- Claim C2, amended: in ImageCropperWithDiv the zoom-change operation
stores `max(0.25, v)` and every reachable state keeps zoom ≥ 0.25; in the
ref-based ImageCropper only the ctrl-wheel handler clamps zoom to 0.25 —
its slider and pinch handlers store the raw value. -/
theorem c2_zoom_min_invariant_amended :
    (∀ (v : ℚ) (s : ImageCropperWithDiv.State),
      (ImageCropperWithDiv.handleZoomChange v s).zoom = max (1/4) v)
    ∧ (∀ s : ImageCropperWithDiv.State,
      ImageCropperWithDiv.Reachable s → (1:ℚ)/4 ≤ s.zoom)
    ∧ (∀ (deltaY : ℚ) (s : ImageCropperRef.State),
      (1:ℚ)/4 ≤ (ImageCropperRef.wheelZoom deltaY true s).zoom)
    ∧ (∀ (v : ℚ) (s : ImageCropperRef.State),
      (ImageCropperRef.handleZoomChange v s).zoom = v) := by
  refine ⟨fun v s => rfl, fun s h => ImageCropperWithDiv.reachable_zoom_lb h,
    fun deltaY s => ?_, fun v s => rfl⟩
  simp only [ImageCropperRef.wheelZoom, if_true]
  exact le_max_left _ _

/-- Claim C2 witness: the initial state of ImageCropperWithDiv is
reachable and satisfies the zoom lower bound. -/
theorem c2_zoom_min_invariant_amended_witness :
    ImageCropperWithDiv.Reachable ImageCropperWithDiv.initialState
    ∧ (1:ℚ)/4 ≤ ImageCropperWithDiv.initialState.zoom :=
  ⟨ImageCropperWithDiv.Reachable.init,
    c2_zoom_min_invariant_amended.2.1 ImageCropperWithDiv.initialState
      ImageCropperWithDiv.Reachable.init⟩

/-- Claim C5, counterexample: in ImageCropperWithDiv a drag delta is
rescaled by the current zoom, not applied exactly. From the reachable
state with zoom = 2, the drag delta (2, 0) moves pan.x by 1, not 2. -/
theorem c5_drag_exact_counterexample :
    ImageCropperWithDiv.Reachable
      (ImageCropperWithDiv.step (ImageCropperWithDiv.Event.zoomSlider 2)
        ImageCropperWithDiv.initialState)
    ∧ (ImageCropperWithDiv.onDrag 2 0
        (ImageCropperWithDiv.step (ImageCropperWithDiv.Event.zoomSlider 2)
          ImageCropperWithDiv.initialState)).pan.x
      ≠ (ImageCropperWithDiv.step (ImageCropperWithDiv.Event.zoomSlider 2)
          ImageCropperWithDiv.initialState).pan.x + 2 :=
  ⟨ImageCropperWithDiv.Reachable.next _ ImageCropperWithDiv.Reachable.init,
    by
      have hmax : max ((1:ℚ)/4) 2 = 2 := max_eq_right (by norm_num)
      norm_num [ImageCropperWithDiv.step, ImageCropperWithDiv.onDrag,
        ImageCropperWithDiv.handleZoomChange,
        ImageCropperWithDiv.handlePanXChange,
        ImageCropperWithDiv.handlePanYChange,
        ImageCropperWithDiv.initialState, hmax]⟩

/-- Claim C5, amended: the rotation and pan sliders store exactly the
input value in both variants; a drag delta (mx, my) changes the pan offset
by (mx / zoom, my / zoom) in ImageCropperWithDiv and by
(mx / 100, my / 100) in the ref-based ImageCropper — a zoom- resp.
constant-rescaled delta, not the raw delta. -/
theorem c5_sliders_exact_drag_rescaled :
    (∀ (v : ℚ) (s : ImageCropperWithDiv.State),
      (ImageCropperWithDiv.handleRotationChange v s).rotation = v)
    ∧ (∀ (v : ℚ) (s : ImageCropperWithDiv.State),
      (ImageCropperWithDiv.handlePanXChange v s).pan.x = v)
    ∧ (∀ (v : ℚ) (s : ImageCropperWithDiv.State),
      (ImageCropperWithDiv.handlePanYChange v s).pan.y = v)
    ∧ (∀ (v : ℚ) (s : ImageCropperRef.State),
      (ImageCropperRef.handleRotationChange v s).rotation = v)
    ∧ (∀ (v : ℚ) (s : ImageCropperRef.State),
      (ImageCropperRef.handlePanXChange v s).pan.x = v)
    ∧ (∀ (v : ℚ) (s : ImageCropperRef.State),
      (ImageCropperRef.handlePanYChange v s).pan.y = v)
    ∧ (∀ (mx my : ℚ) (s : ImageCropperWithDiv.State),
      (ImageCropperWithDiv.onDrag mx my s).pan =
        { x := s.pan.x + mx / s.zoom, y := s.pan.y + my / s.zoom })
    ∧ (∀ (mx my : ℚ) (s : ImageCropperRef.State),
      (ImageCropperRef.onDrag mx my s).pan =
        { x := s.pan.x + mx / 100, y := s.pan.y + my / 100 }) :=
  ⟨fun _ _ => rfl, fun _ _ => rfl, fun _ _ => rfl, fun _ _ => rfl,
    fun _ _ => rfl, fun _ _ => rfl, fun _ _ _ => rfl, fun _ _ _ => rfl⟩

/-- Claim C3, counterexample: the DOM preview and the canvas export are
not equivalent for every transform state. At zoom 1, rotation 90°
(cosine 0, sine 1), pan (1, 0), canvas size 2 and container size 2 (so
the resolution scaling is 1), the image centre lands at (2, 1) in the
export but at (1, 2) in the preview: the export translates by the
un-rotated pan while the preview rotates the pan vector. -/
theorem c3_preview_export_counterexample :
    (0:ℚ)^2 + 1^2 = 1 ∧ (2:ℚ) ≠ 0
    ∧ ¬ Transform2D.previewExportAgree 1 0 1 1 0 2 2 := by
  refine ⟨by norm_num, by norm_num, fun h => ?_⟩
  have h0 := h (0, 0)
  norm_num [Transform2D.canvasExportPoint, Transform2D.divPreviewPoint,
    Transform2D.rotatePt, Prod.ext_iff] at h0

/-- Claim C3, amended: the DOM preview and the canvas export place the
image identically up to the uniform resolution scaling `size / csize`
whenever the rotation is zero (rotation matrix (1, 0)) or the pan offset
is zero; with both a nonzero rotation and a nonzero pan they differ,
because the canvas translates by the un-rotated (zoom- and
resolution-scaled) pan while the CSS transform applies the rotation to
the pan vector. -/
theorem c3_preview_export_agree_amended :
    (∀ (zoom panx pany size csize : ℚ), csize ≠ 0 →
      Transform2D.previewExportAgree zoom 1 0 panx pany size csize)
    ∧ (∀ (zoom c s size csize : ℚ), csize ≠ 0 →
      Transform2D.previewExportAgree zoom c s 0 0 size csize) := by
  constructor
  · intro zoom panx pany size csize hc p
    simp only [Transform2D.canvasExportPoint, Transform2D.divPreviewPoint,
      Transform2D.rotatePt, Prod.ext_iff]
    constructor <;> (field_simp; ring)
  · intro zoom c s size csize hc p
    simp only [Transform2D.canvasExportPoint, Transform2D.divPreviewPoint,
      Transform2D.rotatePt, Prod.ext_iff]
    constructor <;> (field_simp; ring)

/-- Claim C3 witness: concrete instances of both amended directions with
container size 2. -/
theorem c3_preview_export_agree_amended_witness :
    (2:ℚ) ≠ 0
    ∧ Transform2D.previewExportAgree 3 1 0 5 7 4 2
    ∧ Transform2D.previewExportAgree 3 0 1 0 0 4 2 :=
  ⟨two_ne_zero, c3_preview_export_agree_amended.1 3 5 7 4 2 two_ne_zero,
    c3_preview_export_agree_amended.2 3 0 1 4 2 two_ne_zero⟩

/-- Claim C4, counterexample: in the newer ref-based canvas cropper
(second document of src/src/ImageCropperWithDiv.tsx), with no
`resolutionPx` and a container 300 wide, the canvas side is 300 — not the
minimum dimension of a 100 × 50 image. -/
theorem c4_default_resolution_counterexample :
    ImageCropperCanvas.canvasResolution none (some 300) ≠ min (100:ℚ) 50 := by
  norm_num [ImageCropperCanvas.canvasResolution, min_def]

/-- Claim C4, amended: in ImageCropperWithDiv the exported canvas side is
`resolutionPx` when provided and `min(width, height)` of the loaded image
otherwise; in the newer ref-based canvas cropper the side is
`resolutionPx` when provided, otherwise the measured container width,
otherwise 512 — never the image's minimum dimension. -/
theorem c4_export_resolution_amended :
    (∀ (r : ℚ) (cdims : Vector2) (s : ImageCropperWithDiv.State) (w h : ℚ),
      (ImageCropperWithDiv.drawParams (some r) cdims s w h).size = r)
    ∧ (∀ (cdims : Vector2) (s : ImageCropperWithDiv.State) (w h : ℚ),
      (ImageCropperWithDiv.drawParams none cdims s w h).size = min w h)
    ∧ (∀ (r : ℚ) (cw : Option ℚ),
      ImageCropperCanvas.canvasResolution (some r) cw = r)
    ∧ (∀ cw : ℚ, ImageCropperCanvas.canvasResolution none (some cw) = cw)
    ∧ ImageCropperCanvas.canvasResolution none none = 512 :=
  ⟨fun _ _ _ _ _ => rfl, fun _ _ _ _ => rfl, fun _ _ => rfl,
    fun _ => rfl, rfl⟩

/-- Claim C6 (confirmed): on the success path of `drawToCanvas` (context
obtained, image loaded), the encoded cropped image is passed to the
`onCrop` callback when one is supplied and triggers a download otherwise;
the result is a single output action, and a callback action is never a
download action. -/
theorem c6_output_dichotomy :
    ∀ (res : Option ℚ) (cdims : Vector2) (s : ImageCropperWithDiv.State)
      (w h : ℚ),
      ImageCropperWithDiv.drawToCanvas res true cdims true (some (w, h)) s
        = some (ImageCropperWithDiv.CropOutput.callback
            (ImageCropperWithDiv.drawParams res cdims s w h))
      ∧ ImageCropperWithDiv.drawToCanvas res false cdims true (some (w, h)) s
        = some (ImageCropperWithDiv.CropOutput.download
            (ImageCropperWithDiv.drawParams res cdims s w h))
      ∧ (∀ i j : ImageCropperWithDiv.DrawParams,
          ImageCropperWithDiv.CropOutput.callback i
            ≠ ImageCropperWithDiv.CropOutput.download j) :=
  fun _ _ _ _ _ => ⟨rfl, rfl, fun _ _ h => nomatch h⟩

/-- Claim C7 (confirmed): a missing canvas element or 2D context makes the
drawing and submit operations return with no output action, and a
file-change event with no file produces no output action (in
ImageCropperWithDiv it leaves the state untouched as well; in the
ref-based cropper it requests no canvas update). All the operations are
total, so no error is raised. -/
theorem c7_silent_early_return :
    (∀ (res : Option ℚ) (hc : Bool) (cdims : Vector2)
      (dims : Option (ℚ × ℚ)) (s : ImageCropperWithDiv.State),
      ImageCropperWithDiv.drawToCanvas res hc cdims false dims s = none)
    ∧ (∀ (ctxOk : Bool) (dims : Option (ℚ × ℚ)) (s : ImageCropperRef.State),
      ImageCropperRef.updateCanvas false ctxOk dims s = none)
    ∧ (∀ (cOk : Bool) (dims : Option (ℚ × ℚ)) (s : ImageCropperRef.State),
      ImageCropperRef.updateCanvas cOk false dims s = none)
    ∧ (∀ png : String, ImageCropperRef.handleSubmit false true png = none)
    ∧ (∀ (cOk : Bool) (png : String),
      ImageCropperRef.handleSubmit cOk false png = none)
    ∧ (∀ s : ImageCropperWithDiv.State,
      ImageCropperWithDiv.handleImageChange none s = s)
    ∧ (∀ s : ImageCropperRef.State,
      (ImageCropperRef.handleImageChange none s).2 = false) := by
  refine ⟨fun _ _ _ _ _ => rfl, fun _ _ _ => rfl, fun cOk _ _ => ?_,
    fun _ => rfl, fun cOk _ => ?_, fun _ => rfl, fun _ => rfl⟩
  · cases cOk <;> rfl
  · cases cOk <;> rfl

/-- Claim C8 (confirmed): `handleImageChange` of the older ref-based
ImageCropper resets zoom to 0.5 and rotation to 0 before looking at the
file, so a file-change event carrying no file still leaves zoom = 0.5 and
rotation = 0, while the image source and pan stay unchanged. -/
theorem c8_ref_nofile_still_resets :
    ∀ s : ImageCropperRef.State,
      (ImageCropperRef.handleImageChange none s).1.zoom = 1/2
      ∧ (ImageCropperRef.handleImageChange none s).1.rotation = 0
      ∧ (ImageCropperRef.handleImageChange none s).1.imageSrc = s.imageSrc
      ∧ (ImageCropperRef.handleImageChange none s).1.pan = s.pan :=
  fun _ => ⟨rfl, rfl, rfl, rfl⟩

/-- Claim C9 (confirmed): in both variants the pan-X-change operation
writes only the x component of the pan offset and the pan-Y-change
operation writes only the y component; zoom, rotation and the image
source are untouched. -/
theorem c9_pan_frame_conditions :
    (∀ (v : ℚ) (s : ImageCropperWithDiv.State),
      (ImageCropperWithDiv.handlePanXChange v s).pan.x = v
      ∧ (ImageCropperWithDiv.handlePanXChange v s).pan.y = s.pan.y
      ∧ (ImageCropperWithDiv.handlePanXChange v s).zoom = s.zoom
      ∧ (ImageCropperWithDiv.handlePanXChange v s).rotation = s.rotation
      ∧ (ImageCropperWithDiv.handlePanXChange v s).imageSrc = s.imageSrc)
    ∧ (∀ (v : ℚ) (s : ImageCropperWithDiv.State),
      (ImageCropperWithDiv.handlePanYChange v s).pan.y = v
      ∧ (ImageCropperWithDiv.handlePanYChange v s).pan.x = s.pan.x
      ∧ (ImageCropperWithDiv.handlePanYChange v s).zoom = s.zoom
      ∧ (ImageCropperWithDiv.handlePanYChange v s).rotation = s.rotation
      ∧ (ImageCropperWithDiv.handlePanYChange v s).imageSrc = s.imageSrc)
    ∧ (∀ (v : ℚ) (s : ImageCropperRef.State),
      (ImageCropperRef.handlePanXChange v s).pan.x = v
      ∧ (ImageCropperRef.handlePanXChange v s).pan.y = s.pan.y
      ∧ (ImageCropperRef.handlePanXChange v s).zoom = s.zoom
      ∧ (ImageCropperRef.handlePanXChange v s).rotation = s.rotation
      ∧ (ImageCropperRef.handlePanXChange v s).imageSrc = s.imageSrc)
    ∧ (∀ (v : ℚ) (s : ImageCropperRef.State),
      (ImageCropperRef.handlePanYChange v s).pan.y = v
      ∧ (ImageCropperRef.handlePanYChange v s).pan.x = s.pan.x
      ∧ (ImageCropperRef.handlePanYChange v s).zoom = s.zoom
      ∧ (ImageCropperRef.handlePanYChange v s).rotation = s.rotation
      ∧ (ImageCropperRef.handlePanYChange v s).imageSrc = s.imageSrc) :=
  ⟨fun _ _ => ⟨rfl, rfl, rfl, rfl, rfl⟩, fun _ _ => ⟨rfl, rfl, rfl, rfl, rfl⟩,
    fun _ _ => ⟨rfl, rfl, rfl, rfl, rfl⟩, fun _ _ => ⟨rfl, rfl, rfl, rfl, rfl⟩⟩

/-- Claim C10 (confirmed): in ImageCropperWithDiv with internal zoom state,
every reachable state has strictly positive (hence nonzero) zoom — the
initial zoom is 1 and every write passes through the `max(0.25, ·)`
clamp — so the drag handler's pan update, which divides the gesture delta
by zoom, never divides by zero. -/
theorem c10_drag_no_division_by_zero :
    ∀ s : ImageCropperWithDiv.State, ImageCropperWithDiv.Reachable s →
      0 < s.zoom ∧ s.zoom ≠ 0
      ∧ ∀ mx my : ℚ, (ImageCropperWithDiv.onDrag mx my s).pan =
          { x := s.pan.x + mx / s.zoom, y := s.pan.y + my / s.zoom } := by
  intro s h
  have hz : (1:ℚ)/4 ≤ s.zoom := ImageCropperWithDiv.reachable_zoom_lb h
  have hpos : (0:ℚ) < s.zoom := lt_of_lt_of_le (by norm_num) hz
  exact ⟨hpos, ne_of_gt hpos, fun _ _ => rfl⟩

/-- Claim C10 witness: the initial state is reachable and its zoom is
strictly positive. -/
theorem c10_drag_no_division_by_zero_witness :
    ImageCropperWithDiv.Reachable ImageCropperWithDiv.initialState
    ∧ 0 < ImageCropperWithDiv.initialState.zoom :=
  ⟨ImageCropperWithDiv.Reachable.init,
    (c10_drag_no_division_by_zero ImageCropperWithDiv.initialState
      ImageCropperWithDiv.Reachable.init).1⟩
